import Mathlib

/-!
Verification of the Roasters Café multi-stage data-entry application
(src/main.py) against its natural-language specification.

The embedding models:
* Python strings as `List Char` (`PyStr`),
* Python floats as exact rationals (`ℚ`),
* one worksheet as a list of rows of cells (`Table`), row 0 being the header,
* fallible Python indexing (`r[0]`, `r[-1]`) as `Except`-valued functions, so
  that an `IndexError` raised inside a list comprehension is visible as an
  `Except.error` result of the whole comprehension,
* the three POST handlers as pure state transformers on the backing tables.
-/

set_option maxRecDepth 4000

namespace RoastersCafe

/-- Python strings modelled as lists of characters. -/
abbrev PyStr := List Char

/-- Shorthand turning a Lean string literal into a `PyStr`. -/
def str (s : String) : PyStr := s.toList

/-- A spreadsheet cell: gspread yields strings, appended rows may also hold
numbers (Python floats are modelled as exact rationals). -/
inductive Cell where
  | s (v : PyStr)
  | n (v : ℚ)
deriving DecidableEq, Repr

/-- One worksheet: the list of its rows; row 0 (when present) is the header. -/
abbrev Table := List (List Cell)

/-- Python `r[0]` on a list of cells: raises `IndexError` on an empty row. -/
def pyIdx0 (r : List Cell) : Except String Cell :=
  match r with
  | [] => .error "IndexError: list index out of range"
  | c :: _ => .ok c

/-- Python `r[-1]` on a list of cells: raises `IndexError` on an empty row. -/
def pyIdxLast (r : List Cell) : Except String Cell :=
  match r.getLast? with
  | none => .error "IndexError: list index out of range"
  | some c => .ok c

/-- Python list comprehension `[f(r) for r in rows]` where `f` may raise:
elements are produced left to right and the first raised error aborts the
whole comprehension. -/
def comprehendE {α β : Type} (f : α → Except String β) : List α → Except String (List β)
  | [] => .ok []
  | a :: as =>
    match f a with
    | .error e => .error e
    | .ok b =>
      match comprehendE f as with
      | .error e => .error e
      | .ok bs => .ok (b :: bs)

/-- Python `str.upper()` (ASCII case mapping). -/
def pyUpper (s : PyStr) : PyStr := s.map Char.toUpper

/-- Receiving identifier derivation, from `submit_form` (src/main.py:99-101):
`fecha.replace("-", "") + str(provedor[:3]).upper() + str(origen[:3]).upper()
 + "-" + str(lote_bolsa).upper()`.
`replace("-", "")` with a one-character pattern removes every dash. -/
def derive_receiving_id (fecha provedor origen lote_bolsa : PyStr) : PyStr :=
  fecha.filter (fun c => c ≠ '-') ++ pyUpper (provedor.take 3) ++ pyUpper (origen.take 3)
    ++ ['-'] ++ pyUpper lote_bolsa

/-- The identifier formula as the specification words it:
`D.replace("-","") + upper(S[:3]) + upper(O[:3]) + "-" + upper(L)`. -/
def derive_receiving_id_formula (D S O L : PyStr) : PyStr :=
  D.filter (fun c => c ≠ '-') ++ pyUpper (S.take 3) ++ pyUpper (O.take 3) ++ ['-'] ++ pyUpper L

/-- Hulling identifier derivation, from `trillado_submit_form`
(src/main.py:208): `f"{id_recibimiento}-{grano_num}"`. -/
def derive_hulling_id (id_recibimiento grano_num : PyStr) : PyStr :=
  id_recibimiento ++ ['-'] ++ grano_num

/-- C1: the derived Receiving identifier equals the date with dashes removed,
followed by the uppercased first three characters of the supplier and of the
origin, a hyphen, and the uppercased lot label; supplier/origin shorter than 3
characters degrade to shorter segments, and the documented example holds. -/
theorem receiving_id_matches_spec (D S O L : PyStr) :
    derive_receiving_id D S O L = derive_receiving_id_formula D S O L ∧
    (S.length ≤ 3 →
      derive_receiving_id D S O L =
        D.filter (fun c => c ≠ '-') ++ pyUpper S ++ pyUpper (O.take 3) ++ ['-'] ++ pyUpper L) ∧
    derive_receiving_id (str "2024-03-05") (str "Finca El Roble") (str "Huila") (str "B12") =
      str "20240305FINHUI-B12" := by
  refine ⟨rfl, ?_, by decide⟩
  intro hS
  simp [derive_receiving_id, List.take_of_length_le hS]

/-- C1 instantiated: the documented example and a short-supplier example. -/
theorem receiving_id_matches_spec_witness :
    derive_receiving_id (str "2024-03-05") (str "Finca El Roble") (str "Huila") (str "B12") =
      str "20240305FINHUI-B12" ∧
    derive_receiving_id (str "2024-03-05") (str "ab") (str "Huila") (str "L") =
      str "20240305ABHUI-L" :=
  ⟨(receiving_id_matches_spec (str "2024-03-05") (str "Finca El Roble") (str "Huila")
      (str "B12")).2.2,
   by
    have h := (receiving_id_matches_spec (str "2024-03-05") (str "ab") (str "Huila")
      (str "L")).2.1 (by decide)
    rw [h]; decide⟩

/-! ## Key-column extraction, per stage (as the handlers compute it) -/

/-- Receiving duplicate-check key list, from `submit_form` (src/main.py:112):
`[r[0] for r in sheet.get_all_values()]` — over ALL rows, header included. -/
def recebExistingIds (t : Table) : Except String (List Cell) :=
  comprehendE pyIdx0 t

/-- Upstream selection list of Receiving identifiers, from `trillado_form_page`
(src/main.py:171) and `trillado_submit_form` (src/main.py:204):
`[r[0] for r in all_rows[1:]] if len(all_rows) > 1 else []`. -/
def recibimientoIds (t : Table) : Except String (List Cell) :=
  if 1 < t.length then comprehendE pyIdx0 (t.drop 1) else .ok []

/-- Hulling duplicate-check key list, from `trillado_submit_form`
(src/main.py:211):
`[r[-1] for r in trillado_rows[1:]] if len(trillado_rows) > 1 else []`. -/
def trilladoExistingIds (t : Table) : Except String (List Cell) :=
  if 1 < t.length then comprehendE pyIdxLast (t.drop 1) else .ok []

/-- Profiling duplicate-check key list, from `perfilado_submit_form`
(src/main.py:338):
`[r[0] for r in perfilado_rows[1:]] if len(perfilado_rows) > 1 else []`. -/
def perfiladoExistingIds (t : Table) : Except String (List Cell) :=
  if 1 < t.length then comprehendE pyIdx0 (t.drop 1) else .ok []

/-- Profiling selection list of Hulling identifiers, from
`perfilado_form_page` (src/main.py:253) and `perfilado_submit_form`
(src/main.py:332):
`[r[5] for r in trillado_rows[1:] if len(r) > 5] if len(trillado_rows) > 1 else []`. -/
def idTrilladoOptions (t : Table) : List Cell :=
  if 1 < t.length then
    (t.drop 1).filterMap (fun r => if 5 < r.length then r.get? 5 else none)
  else []

/-- Pre-selected default for a selection list, from
`id_trillado_options[0] if id_trillado_options else ""` (src/main.py:255). -/
def selectionDefault (opts : List Cell) : Cell :=
  match opts with
  | [] => Cell.s []
  | c :: _ => c

/-- Number of rows of a table whose first cell is the given identifier. -/
def countId (t : Table) (id : PyStr) : Nat :=
  t.countP (fun r => decide (r.head? = some (Cell.s id)))

/-! ## Husk loss derivation (Profiling stage) -/

/-- Round a rational to the nearest integer, ties to the even integer —
the rounding rule of Python 3's builtin `round`. -/
def rndHalfEven (q : ℚ) : ℤ :=
  let f : ℤ := ⌊q⌋
  let frac : ℚ := q - (f : ℚ)
  if frac < 1/2 then f
  else if frac = 1/2 then (if f % 2 = 0 then f else f + 1)
  else f + 1

/-- Python `round(q, 2)`: round to 2 decimal places, ties to even
(floats idealised as exact rationals). -/
def pyRound2 (q : ℚ) : ℚ := (rndHalfEven (q * 100) : ℚ) / 100

/-- Husk loss derivation, inlined in `perfilado_submit_form`
(src/main.py:324-327): `0` when the parchment sample weight is `0`, otherwise
`1 - round(muestra_trillado / muestra_pergamino, 2)`. -/
def husk_loss_fraction (muestra_pergamino muestra_trillado : ℚ) : ℚ :=
  if muestra_pergamino = 0 then 0
  else 1 - pyRound2 (muestra_trillado / muestra_pergamino)

/-! ## Forms, rows, echoes and messages -/

/-- Checkbox normalisation in `submit_form` (src/main.py:94-96):
`x if x == "yes" else "no"` applied to a nullable form field. -/
def normCheckbox (v : Option PyStr) : PyStr :=
  if v = some (str "yes") then str "yes" else str "no"

/-- The Recebimiento form fields (src/main.py:75-88). -/
structure RecebForm where
  fecha : PyStr
  provedor : PyStr
  ciudad : PyStr
  origen : PyStr
  lote_bolsa : PyStr
  cantidad_kg : ℚ
  humedad : ℚ
  motorista : PyStr
  vehiculo_placa : PyStr
  observacion : PyStr
  libre_contaminacion : Option PyStr
  vehiculo_sin_contaminacion : Option PyStr
  buen_estado : Option PyStr
  responsable : PyStr
deriving DecidableEq, Repr

/-- The row appended to the Recebimiento sheet (src/main.py:104-109),
identifier first; `lc`, `vsc`, `be` are the normalised checkbox values. -/
def recebRow (f : RecebForm) (id lc vsc be : PyStr) : List Cell :=
  [.s id, .s f.fecha, .s f.provedor, .s f.ciudad, .s f.origen, .s f.lote_bolsa,
   .n f.cantidad_kg, .n f.humedad, .s f.motorista, .s f.vehiculo_placa, .s f.observacion,
   .s lc, .s vsc, .s be, .s f.responsable]

/-- The `last_submission` echo of `submit_form` (src/main.py:119-135). -/
def recebLastSubmission (f : RecebForm) (id lc vsc be : PyStr) : List (String × Cell) :=
  [("id_recibimiento", .s id), ("fecha", .s f.fecha), ("provedor", .s f.provedor),
   ("ciudad", .s f.ciudad), ("origen", .s f.origen), ("lote_bolsa", .s f.lote_bolsa),
   ("cantidad_kg", .n f.cantidad_kg), ("humedad", .n f.humedad),
   ("motorista", .s f.motorista), ("vehiculo_placa", .s f.vehiculo_placa),
   ("observacion", .s f.observacion), ("libre_contaminacion", .s lc),
   ("vehiculo_sin_contaminacion", .s vsc), ("buen_estado", .s be),
   ("responsable", .s f.responsable)]

/-- Rejection message of `submit_form` (src/main.py:114). -/
def recebRejectMsg (id : PyStr) : PyStr := str "❌ Ya esta registrado! ID: " ++ id

/-- Success message of `submit_form` (src/main.py:117). -/
def recebSuccessMsg (id : PyStr) : PyStr := str "✅ Registered successfully! ID: " ++ id

/-- Result of a Recebimiento submission: the new table contents, the status
message and the echoed record. -/
structure RecebOutcome where
  table : Table
  msg : PyStr
  lastSubmission : List (String × Cell)
deriving DecidableEq, Repr

/-- `submit_form` (src/main.py:72-160), restricted to its logic: normalise the
checkboxes, derive the identifier, build the row, read the key column of the
whole Recebimiento sheet, and append exactly when the identifier is absent. -/
def submit_form (t : Table) (f : RecebForm) : Except String RecebOutcome :=
  let lc := normCheckbox f.libre_contaminacion
  let vsc := normCheckbox f.vehiculo_sin_contaminacion
  let be := normCheckbox f.buen_estado
  let id_recibimiento := derive_receiving_id f.fecha f.provedor f.origen f.lote_bolsa
  let row := recebRow f id_recibimiento lc vsc be
  match recebExistingIds t with
  | .error e => .error e
  | .ok existing_ids =>
    let last := recebLastSubmission f id_recibimiento lc vsc be
    if Cell.s id_recibimiento ∈ existing_ids then
      .ok { table := t, msg := recebRejectMsg id_recibimiento, lastSubmission := last }
    else
      .ok { table := t ++ [row], msg := recebSuccessMsg id_recibimiento, lastSubmission := last }

/-- The Trillado form fields (src/main.py:194-198). -/
structure TrilladoForm where
  id_recibimiento : PyStr
  fecha : PyStr
  grano_num : PyStr
  cantidad_kg : ℚ
  observacion : PyStr
deriving DecidableEq, Repr

/-- The row appended to the Trillado sheet (src/main.py:215), identifier last. -/
def trilladoRow (f : TrilladoForm) (id_trillado : PyStr) : List Cell :=
  [.s f.id_recibimiento, .s f.fecha, .s f.grano_num, .n f.cantidad_kg,
   .s f.observacion, .s id_trillado]

/-- The `last_submission` echo of `trillado_submit_form` (src/main.py:219-226). -/
def trilladoLastSubmission (f : TrilladoForm) (id_trillado : PyStr) : List (String × Cell) :=
  [("id_recibimiento", .s f.id_recibimiento), ("fecha", .s f.fecha),
   ("grano_num", .s f.grano_num), ("cantidad_kg", .n f.cantidad_kg),
   ("observacion", .s f.observacion), ("id_trillado", .s id_trillado)]

/-- Rejection message of `trillado_submit_form` (src/main.py:213). -/
def trilladoRejectMsg (id : PyStr) : PyStr := str "❌ Ya esta registrado! ID Trillado: " ++ id

/-- Success message of `trillado_submit_form` (src/main.py:217). -/
def trilladoSuccessMsg (id : PyStr) : PyStr := str "✅ Trillado registrado! ID Trillado: " ++ id

/-- Result of a Trillado submission; `recibimiento_ids` is the upstream
selection list re-read for redisplay. -/
structure TrilladoOutcome where
  table : Table
  msg : PyStr
  lastSubmission : List (String × Cell)
  recibimiento_ids : List Cell
deriving DecidableEq, Repr

/-- `trillado_submit_form` (src/main.py:191-243): re-read the upstream
Recebimiento identifiers, derive the Trillado identifier, check it against the
LAST column of the non-header Trillado rows, and append exactly when absent. -/
def trillado_submit_form (receb tril : Table) (f : TrilladoForm) :
    Except String TrilladoOutcome :=
  match recibimientoIds receb with
  | .error e => .error e
  | .ok ids =>
    let id_trillado := derive_hulling_id f.id_recibimiento f.grano_num
    match trilladoExistingIds tril with
    | .error e => .error e
    | .ok existing_ids_trillado =>
      let last := trilladoLastSubmission f id_trillado
      if Cell.s id_trillado ∈ existing_ids_trillado then
        .ok { table := tril, msg := trilladoRejectMsg id_trillado,
              lastSubmission := last, recibimiento_ids := ids }
      else
        .ok { table := tril ++ [trilladoRow f id_trillado],
              msg := trilladoSuccessMsg id_trillado,
              lastSubmission := last, recibimiento_ids := ids }

/-- The Perfilado form fields (src/main.py:297-322). -/
structure PerfiladoForm where
  id_trillado : PyStr
  muestra_pergamino : ℚ
  humedad_pergamino : ℚ
  muestra_trillado : ℚ
  malla : PyStr
  densidad : ℚ
  humedad_grano_verde : ℚ
  negro : ℚ
  agrio : ℚ
  cereza_seca : ℚ
  dano_hongo : ℚ
  impurezas : ℚ
  dano_severo_insectos : ℚ
  parcial_negro : ℚ
  parcial_agrio : ℚ
  pergamino : ℚ
  flotador : ℚ
  inmaduro : ℚ
  averanado : ℚ
  concha : ℚ
  partido_mordido : ℚ
  cascara_pulpa_seca : ℚ
  dano_leve_insectos : ℚ
  perfil : PyStr
  caramelizacion : ℚ
  desarrollo : ℚ

/-- The row appended to the Perfilado sheet (src/main.py:342-347): identifier
first, the derived husk loss `perda` at column index 7, 27 columns in all. -/
def perfiladoRow (f : PerfiladoForm) (perda : ℚ) : List Cell :=
  [.s f.id_trillado, .n f.muestra_pergamino, .n f.humedad_pergamino, .n f.muestra_trillado,
   .s f.malla, .n f.densidad, .n f.humedad_grano_verde, .n perda,
   .n f.negro, .n f.agrio, .n f.cereza_seca, .n f.dano_hongo, .n f.impurezas,
   .n f.dano_severo_insectos, .n f.parcial_negro, .n f.parcial_agrio,
   .n f.pergamino, .n f.flotador, .n f.inmaduro, .n f.averanado, .n f.concha,
   .n f.partido_mordido, .n f.cascara_pulpa_seca, .n f.dano_leve_insectos,
   .s f.perfil, .n f.caramelizacion, .n f.desarrollo]

/-- The `last_submission` echo of `perfilado_submit_form` (src/main.py:351-378);
it does not include the derived husk loss. -/
def perfiladoLastSubmission (f : PerfiladoForm) : List (String × Cell) :=
  [("id_trillado", .s f.id_trillado), ("muestra_pergamino", .n f.muestra_pergamino),
   ("humedad_pergamino", .n f.humedad_pergamino), ("muestra_trillado", .n f.muestra_trillado),
   ("malla", .s f.malla), ("densidad", .n f.densidad),
   ("humedad_grano_verde", .n f.humedad_grano_verde), ("negro", .n f.negro),
   ("agrio", .n f.agrio), ("cereza_seca", .n f.cereza_seca),
   ("dano_hongo", .n f.dano_hongo), ("impurezas", .n f.impurezas),
   ("dano_severo_insectos", .n f.dano_severo_insectos), ("parcial_negro", .n f.parcial_negro),
   ("parcial_agrio", .n f.parcial_agrio), ("pergamino", .n f.pergamino),
   ("flotador", .n f.flotador), ("inmaduro", .n f.inmaduro),
   ("averanado", .n f.averanado), ("concha", .n f.concha),
   ("partido_mordido", .n f.partido_mordido), ("cascara_pulpa_seca", .n f.cascara_pulpa_seca),
   ("dano_leve_insectos", .n f.dano_leve_insectos), ("perfil", .s f.perfil),
   ("caramelizacion", .n f.caramelizacion), ("desarrollo", .n f.desarrollo)]

/-- Rejection message of `perfilado_submit_form` (src/main.py:340). -/
def perfiladoRejectMsg (id : PyStr) : PyStr := str "❌ Ya esta registrado! ID Trillado: " ++ id

/-- Success message of `perfilado_submit_form` (src/main.py:349). -/
def perfiladoSuccessMsg (id : PyStr) : PyStr := str "✅ Perfilado registrado! ID Trillado: " ++ id

/-- Result of a Perfilado submission; `id_trillado_options` is the upstream
selection list re-read for redisplay. -/
structure PerfiladoOutcome where
  table : Table
  msg : PyStr
  lastSubmission : List (String × Cell)
  id_trillado_options : List Cell
deriving DecidableEq, Repr

/-- `perfilado_submit_form` (src/main.py:294-389): compute the husk loss,
re-read the upstream Trillado identifier options, check the submitted
identifier verbatim against column 0 of the non-header Perfilado rows, and
append exactly when absent. -/
def perfilado_submit_form (tril perf : Table) (f : PerfiladoForm) :
    Except String PerfiladoOutcome :=
  let perda_casca := husk_loss_fraction f.muestra_pergamino f.muestra_trillado
  let opts := idTrilladoOptions tril
  match perfiladoExistingIds perf with
  | .error e => .error e
  | .ok existing_ids_perfilado =>
    let last := perfiladoLastSubmission f
    if Cell.s f.id_trillado ∈ existing_ids_perfilado then
      .ok { table := perf, msg := perfiladoRejectMsg f.id_trillado,
            lastSubmission := last, id_trillado_options := opts }
    else
      .ok { table := perf ++ [perfiladoRow f perda_casca],
            msg := perfiladoSuccessMsg f.id_trillado,
            lastSubmission := last, id_trillado_options := opts }

/-! ## Basic lemmas about the extraction primitives -/

theorem pyIdx0_ok_iff (r : List Cell) (c : Cell) : pyIdx0 r = .ok c ↔ r.head? = some c := by
  cases r <;> simp [pyIdx0]

theorem pyIdxLast_ok_iff (r : List Cell) (c : Cell) :
    pyIdxLast r = .ok c ↔ r.getLast? = some c := by
  unfold pyIdxLast
  cases h : r.getLast? <;> simp [h]

theorem pyIdx0_ok_of_ne_nil (r : List Cell) (h : r ≠ []) : ∃ c, pyIdx0 r = .ok c := by
  cases r with
  | nil => exact absurd rfl h
  | cons c cs => exact ⟨c, rfl⟩

theorem comprehendE_cons {α β : Type} (f : α → Except String β) (a : α) (as : List α) :
    comprehendE f (a :: as) =
      match f a with
      | .error e => .error e
      | .ok b =>
        match comprehendE f as with
        | .error e => .error e
        | .ok bs => .ok (b :: bs) := rfl

theorem comprehendE_mem {α β : Type} (f : α → Except String β) (l : List α) :
    ∀ bs : List β, comprehendE f l = .ok bs →
      ∀ b : β, (b ∈ bs ↔ ∃ a ∈ l, f a = .ok b) := by
  induction l with
  | nil =>
    intro bs h b
    simp only [comprehendE, Except.ok.injEq] at h
    subst h
    simp
  | cons a as ih =>
    intro bs h b
    rw [comprehendE_cons] at h
    cases hfa : f a with
    | error e => rw [hfa] at h; simp at h
    | ok c =>
      rw [hfa] at h
      cases hrec : comprehendE f as with
      | error e => rw [hrec] at h; simp at h
      | ok cs =>
        rw [hrec] at h
        simp only [Except.ok.injEq] at h
        subst h
        have hmem := ih cs hrec b
        simp only [List.mem_cons, hmem, hfa, Except.ok.injEq]
        constructor
        · rintro (rfl | ⟨x, hx, hfx⟩)
          · exact ⟨a, Or.inl rfl, hfa⟩
          · exact ⟨x, Or.inr hx, hfx⟩
        · rintro ⟨x, hx | hx, hfx⟩
          · subst hx; rw [hfa] at hfx; simp only [Except.ok.injEq] at hfx; exact Or.inl hfx.symm
          · exact Or.inr ⟨x, hx, hfx⟩

theorem comprehendE_length {α β : Type} (f : α → Except String β) (l : List α) :
    ∀ bs : List β, comprehendE f l = .ok bs → bs.length = l.length := by
  induction l with
  | nil =>
    intro bs h
    simp only [comprehendE, Except.ok.injEq] at h
    subst h
    rfl
  | cons a as ih =>
    intro bs h
    rw [comprehendE_cons] at h
    cases hfa : f a with
    | error e => rw [hfa] at h; simp at h
    | ok c =>
      rw [hfa] at h
      cases hrec : comprehendE f as with
      | error e => rw [hrec] at h; simp at h
      | ok cs =>
        rw [hrec] at h
        simp only [Except.ok.injEq] at h
        subst h
        simp [ih cs hrec]

theorem comprehendE_ok_of_forall {α β : Type} (f : α → Except String β) (l : List α)
    (h : ∀ a ∈ l, ∃ b, f a = .ok b) : ∃ bs, comprehendE f l = .ok bs := by
  induction l with
  | nil => exact ⟨[], rfl⟩
  | cons a as ih =>
    obtain ⟨b, hb⟩ := h a (List.mem_cons_self a as)
    obtain ⟨bs, hbs⟩ := ih (fun x hx => h x (List.mem_cons_of_mem a hx))
    refine ⟨b :: bs, ?_⟩
    rw [comprehendE_cons, hb, hbs]

theorem comprehendE_error_of_mem {α β : Type} (f : α → Except String β) (l : List α)
    (a : α) (ha : a ∈ l) (e : String) (he : f a = .error e) :
    ∃ e2, comprehendE f l = .error e2 := by
  induction l with
  | nil => cases ha
  | cons x xs ih =>
    rw [comprehendE_cons]
    cases hfx : f x with
    | error e2 => exact ⟨e2, rfl⟩
    | ok b =>
      rcases List.mem_cons.mp ha with rfl | hmem
      · rw [hfx] at he; cases he
      · obtain ⟨e2, he2⟩ := ih hmem
        rw [he2]
        exact ⟨e2, rfl⟩

theorem comprehendE_append {α β : Type} (f : α → Except String β) (l1 l2 : List α)
    (b1 b2 : List β) (h1 : comprehendE f l1 = .ok b1) (h2 : comprehendE f l2 = .ok b2) :
    comprehendE f (l1 ++ l2) = .ok (b1 ++ b2) := by
  induction l1 generalizing b1 with
  | nil =>
    simp only [comprehendE, Except.ok.injEq] at h1
    subst h1
    simpa using h2
  | cons a as ih =>
    rw [comprehendE_cons] at h1
    cases hfa : f a with
    | error e => rw [hfa] at h1; simp at h1
    | ok c =>
      rw [hfa] at h1
      cases hrec : comprehendE f as with
      | error e => rw [hrec] at h1; simp at h1
      | ok cs =>
        rw [hrec] at h1
        simp only [Except.ok.injEq] at h1
        subst h1
        rw [List.cons_append, comprehendE_cons, hfa, ih cs hrec]
        rfl

/-! ## Stage-level characterisations of the key-column lists -/

theorem recebExistingIds_mem (t : Table) (ex : List Cell)
    (h : recebExistingIds t = .ok ex) (c : Cell) :
    c ∈ ex ↔ ∃ r ∈ t, r.head? = some c := by
  have := comprehendE_mem pyIdx0 t ex h c
  simpa [pyIdx0_ok_iff] using this

theorem trilladoExistingIds_mem (t : Table) (ex : List Cell)
    (h : trilladoExistingIds t = .ok ex) (c : Cell) :
    c ∈ ex ↔ ∃ r ∈ t.drop 1, r.getLast? = some c := by
  unfold trilladoExistingIds at h
  split at h
  · have := comprehendE_mem pyIdxLast (t.drop 1) ex h c
    simpa [pyIdxLast_ok_iff] using this
  · rename_i hlen
    simp only [Except.ok.injEq] at h
    subst h
    have hdrop : t.drop 1 = [] := List.drop_eq_nil_of_le (by omega)
    simp [hdrop]

theorem perfiladoExistingIds_mem (t : Table) (ex : List Cell)
    (h : perfiladoExistingIds t = .ok ex) (c : Cell) :
    c ∈ ex ↔ ∃ r ∈ t.drop 1, r.head? = some c := by
  unfold perfiladoExistingIds at h
  split at h
  · have := comprehendE_mem pyIdx0 (t.drop 1) ex h c
    simpa [pyIdx0_ok_iff] using this
  · rename_i hlen
    simp only [Except.ok.injEq] at h
    subst h
    have hdrop : t.drop 1 = [] := List.drop_eq_nil_of_le (by omega)
    simp [hdrop]

/-! ## C2: header handling of the duplicate checks -/

/-- A Receiving form whose derived identifier is the two-character string
`"A-"`. -/
def headerCollidingForm : RecebForm :=
  { fecha := str "A", provedor := [], ciudad := [], origen := [], lote_bolsa := [],
    cantidad_kg := 0, humedad := 0, motorista := [], vehiculo_placa := [], observacion := [],
    libre_contaminacion := none, vehiculo_sin_contaminacion := none, buen_estado := none,
    responsable := [] }

/-- C2 is false as stated: the Receiving duplicate check does NOT skip row 0.
On a Receiving table with a single row (fewer than 2 rows) whose first cell is
`"A-"`, a submission deriving the identifier `"A-"` is reported as a
duplicate and rejected. -/
theorem receb_dup_check_scans_header_row :
    ([[Cell.s (str "A-")]] : Table).length < 2 ∧
    submit_form [[Cell.s (str "A-")]] headerCollidingForm =
      .ok { table := [[Cell.s (str "A-")]],
            msg := recebRejectMsg (str "A-"),
            lastSubmission := recebLastSubmission headerCollidingForm (str "A-")
              (str "no") (str "no") (str "no") } := by
  exact ⟨by decide, rfl⟩

/-- C2 (amended): the Hulling and Profiling duplicate checks treat row 0 as a
header and skip it, so with fewer than 2 rows they report no duplicates; the
Receiving duplicate check instead scans ALL rows, row 0 included.  Each check
finds the candidate exactly when it equals the key-column entry of a scanned
row (column 0 for Receiving and Profiling, last column for Hulling). -/
theorem dup_check_header_handling (t : Table) (id : PyStr)
    (exR exT exP : List Cell)
    (hR : recebExistingIds t = .ok exR)
    (hT : trilladoExistingIds t = .ok exT)
    (hP : perfiladoExistingIds t = .ok exP) :
    (t.length < 2 → exT = [] ∧ exP = []) ∧
    (Cell.s id ∈ exT ↔ ∃ r ∈ t.drop 1, r.getLast? = some (Cell.s id)) ∧
    (Cell.s id ∈ exP ↔ ∃ r ∈ t.drop 1, r.head? = some (Cell.s id)) ∧
    (Cell.s id ∈ exR ↔ ∃ r ∈ t, r.head? = some (Cell.s id)) := by
  refine ⟨?_, trilladoExistingIds_mem t exT hT _, perfiladoExistingIds_mem t exP hP _,
    recebExistingIds_mem t exR hR _⟩
  intro hlen
  unfold trilladoExistingIds at hT
  unfold perfiladoExistingIds at hP
  rw [if_neg (by omega)] at hT
  rw [if_neg (by omega)] at hP
  simp only [Except.ok.injEq] at hT hP
  exact ⟨hT.symm, hP.symm⟩

/-- C2 (amended) evaluated on the empty store. -/
theorem dup_check_header_handling_witness :
    (([] : Table).length < 2 → ([] : List Cell) = [] ∧ ([] : List Cell) = []) ∧
    (Cell.s (str "A") ∈ ([] : List Cell) ↔
      ∃ r ∈ ([] : Table).drop 1, r.getLast? = some (Cell.s (str "A"))) ∧
    (Cell.s (str "A") ∈ ([] : List Cell) ↔
      ∃ r ∈ ([] : Table).drop 1, r.head? = some (Cell.s (str "A"))) ∧
    (Cell.s (str "A") ∈ ([] : List Cell) ↔
      ∃ r ∈ ([] : Table), r.head? = some (Cell.s (str "A"))) :=
  dup_check_header_handling [] (str "A") [] [] [] rfl rfl rfl

/-! ## C3: reject-or-append behaviour of the three POST handlers -/

/-- C3: at each stage, a submission whose derived identifier is already in the
target table's key column (as scanned by that stage's check) is rejected: no
row is appended, the rejection message is produced, and the attempted record
is still echoed back as the last submission.  When the identifier is absent,
exactly one row is appended and a success message containing the identifier is
produced. -/
theorem submit_reject_or_append
    (tR : Table) (fR : RecebForm) (exR : List Cell) (hR : recebExistingIds tR = .ok exR)
    (tU tT : Table) (fT : TrilladoForm) (lU exT : List Cell)
    (hU : recibimientoIds tU = .ok lU) (hT : trilladoExistingIds tT = .ok exT)
    (tV tP : Table) (fP : PerfiladoForm) (exP : List Cell)
    (hP : perfiladoExistingIds tP = .ok exP)
    (idR idT : PyStr)
    (hidR : idR = derive_receiving_id fR.fecha fR.provedor fR.origen fR.lote_bolsa)
    (hidT : idT = derive_hulling_id fT.id_recibimiento fT.grano_num) :
    ((Cell.s idR ∈ exR →
        submit_form tR fR =
          .ok { table := tR, msg := recebRejectMsg idR,
                lastSubmission := recebLastSubmission fR idR
                  (normCheckbox fR.libre_contaminacion)
                  (normCheckbox fR.vehiculo_sin_contaminacion)
                  (normCheckbox fR.buen_estado) }) ∧
     (Cell.s idR ∉ exR →
        submit_form tR fR =
          .ok { table := tR ++ [recebRow fR idR (normCheckbox fR.libre_contaminacion)
                  (normCheckbox fR.vehiculo_sin_contaminacion) (normCheckbox fR.buen_estado)],
                msg := recebSuccessMsg idR,
                lastSubmission := recebLastSubmission fR idR
                  (normCheckbox fR.libre_contaminacion)
                  (normCheckbox fR.vehiculo_sin_contaminacion)
                  (normCheckbox fR.buen_estado) } ∧
        ∃ pre, recebSuccessMsg idR = pre ++ idR)) ∧
    ((Cell.s idT ∈ exT →
        trillado_submit_form tU tT fT =
          .ok { table := tT, msg := trilladoRejectMsg idT,
                lastSubmission := trilladoLastSubmission fT idT,
                recibimiento_ids := lU }) ∧
     (Cell.s idT ∉ exT →
        trillado_submit_form tU tT fT =
          .ok { table := tT ++ [trilladoRow fT idT], msg := trilladoSuccessMsg idT,
                lastSubmission := trilladoLastSubmission fT idT,
                recibimiento_ids := lU } ∧
        ∃ pre, trilladoSuccessMsg idT = pre ++ idT)) ∧
    ((Cell.s fP.id_trillado ∈ exP →
        perfilado_submit_form tV tP fP =
          .ok { table := tP, msg := perfiladoRejectMsg fP.id_trillado,
                lastSubmission := perfiladoLastSubmission fP,
                id_trillado_options := idTrilladoOptions tV }) ∧
     (Cell.s fP.id_trillado ∉ exP →
        perfilado_submit_form tV tP fP =
          .ok { table := tP ++ [perfiladoRow fP
                  (husk_loss_fraction fP.muestra_pergamino fP.muestra_trillado)],
                msg := perfiladoSuccessMsg fP.id_trillado,
                lastSubmission := perfiladoLastSubmission fP,
                id_trillado_options := idTrilladoOptions tV } ∧
        ∃ pre, perfiladoSuccessMsg fP.id_trillado = pre ++ fP.id_trillado)) := by
  subst hidR hidT
  refine ⟨⟨?_, ?_⟩, ⟨?_, ?_⟩, ⟨?_, ?_⟩⟩
  · intro hmem
    simp only [submit_form, hR, if_pos hmem]
  · intro hmem
    refine ⟨?_, str "✅ Registered successfully! ID: ", rfl⟩
    simp only [submit_form, hR, if_neg hmem]
  · intro hmem
    simp only [trillado_submit_form, hU, hT, if_pos hmem]
  · intro hmem
    refine ⟨?_, str "✅ Trillado registrado! ID Trillado: ", rfl⟩
    simp only [trillado_submit_form, hU, hT, if_neg hmem]
  · intro hmem
    simp only [perfilado_submit_form, hP, if_pos hmem]
  · intro hmem
    refine ⟨?_, str "✅ Perfilado registrado! ID Trillado: ", rfl⟩
    simp only [perfilado_submit_form, hP, if_neg hmem]

/-- An all-blank Receiving form (derived identifier `"-"`). -/
def blankRecebForm : RecebForm :=
  { fecha := [], provedor := [], ciudad := [], origen := [], lote_bolsa := [],
    cantidad_kg := 0, humedad := 0, motorista := [], vehiculo_placa := [], observacion := [],
    libre_contaminacion := none, vehiculo_sin_contaminacion := none, buen_estado := none,
    responsable := [] }

/-- An all-blank Trillado form (derived identifier `"-"`). -/
def blankTrilladoForm : TrilladoForm :=
  { id_recibimiento := [], fecha := [], grano_num := [], cantidad_kg := 0, observacion := [] }

/-- An all-zero Perfilado form. -/
def blankPerfiladoForm : PerfiladoForm :=
  { id_trillado := [], muestra_pergamino := 0, humedad_pergamino := 0, muestra_trillado := 0,
    malla := [], densidad := 0, humedad_grano_verde := 0, negro := 0, agrio := 0,
    cereza_seca := 0, dano_hongo := 0, impurezas := 0, dano_severo_insectos := 0,
    parcial_negro := 0, parcial_agrio := 0, pergamino := 0, flotador := 0, inmaduro := 0,
    averanado := 0, concha := 0, partido_mordido := 0, cascara_pulpa_seca := 0,
    dano_leve_insectos := 0, perfil := [], caramelizacion := 0, desarrollo := 0 }

/-- C3 evaluated on empty stores: all three submissions succeed and append. -/
theorem submit_reject_or_append_witness :
    submit_form [] blankRecebForm =
      .ok { table := [recebRow blankRecebForm (str "-") (str "no") (str "no") (str "no")],
            msg := recebSuccessMsg (str "-"),
            lastSubmission := recebLastSubmission blankRecebForm (str "-")
              (str "no") (str "no") (str "no") } ∧
    trillado_submit_form [] [] blankTrilladoForm =
      .ok { table := [trilladoRow blankTrilladoForm (str "-")],
            msg := trilladoSuccessMsg (str "-"),
            lastSubmission := trilladoLastSubmission blankTrilladoForm (str "-"),
            recibimiento_ids := [] } := by
  have h := submit_reject_or_append [] blankRecebForm [] rfl [] [] blankTrilladoForm [] []
    rfl rfl [] [] blankPerfiladoForm [] rfl (str "-") (str "-") (by decide) (by decide)
  exact ⟨(h.1.2 (by simp)).1, (h.2.1.2 (by simp)).1⟩

/-! ## C4: husk loss derivation -/

/-- C4: the husk loss fraction is 0 when the parchment sample weight is 0 (no
error is signalled, including at 0/0); otherwise it is 1 minus the ratio
rounded to 2 decimal places, the rounding being applied to the ratio before
the subtraction; and `husk_loss_fraction 100 90 = 1/10`. -/
theorem husk_loss_spec (p h : ℚ) :
    (p = 0 → husk_loss_fraction p h = 0) ∧
    (p ≠ 0 → husk_loss_fraction p h = 1 - pyRound2 (h / p) ∧
      ∃ z : ℤ, pyRound2 (h / p) = (z : ℚ) / 100) ∧
    husk_loss_fraction 100 90 = 1/10 := by
  refine ⟨?_, ?_, by norm_num [husk_loss_fraction, pyRound2, rndHalfEven]⟩
  · intro h0
    simp [husk_loss_fraction, h0]
  · intro hp
    exact ⟨by simp [husk_loss_fraction, hp], rndHalfEven ((h / p) * 100), rfl⟩

/-- C4 evaluated at the guard case, the 0/0 case and the documented example. -/
theorem husk_loss_spec_witness :
    husk_loss_fraction 0 5 = 0 ∧ husk_loss_fraction 0 0 = 0 ∧
    husk_loss_fraction 100 90 = 1/10 :=
  ⟨(husk_loss_spec 0 5).1 rfl, (husk_loss_spec 0 0).1 rfl, (husk_loss_spec 100 90).2.2⟩

/-! ## C5: short-row handling in key-column extraction -/

theorem pyIdxLast_ok_of_ne_nil (r : List Cell) (h : r ≠ []) : ∃ c, pyIdxLast r = .ok c := by
  have hs : r.getLast?.isSome := List.getLast?_isSome.mpr h
  unfold pyIdxLast
  cases hg : r.getLast? with
  | none => rw [hg] at hs; cases hs
  | some c => exact ⟨c, rfl⟩

theorem filterMapGuard_eq_map_filter (l : List (List Cell)) :
    l.filterMap (fun r => if 5 < r.length then r.get? 5 else none) =
      (l.filter (fun r => 5 < r.length)).map (fun r => r.getD 5 (Cell.s [])) := by
  induction l with
  | nil => rfl
  | cons r rs ih =>
    by_cases h : 5 < r.length
    · have hg : r.get? 5 = some (r.getD 5 (Cell.s [])) := by
        rw [List.getD_eq_getElem?_getD, List.get?_eq_getElem?, List.getElem?_eq_getElem h]
        rfl
      rw [List.filterMap_cons_some (by rw [if_pos h]; exact hg),
          List.filter_cons_of_pos (by simpa using h), List.map_cons, ih]
    · rw [List.filterMap_cons_none (by rw [if_neg h]),
          List.filter_cons_of_neg (by simpa using h), ih]

theorem idTrilladoOptions_eq (t : Table) :
    idTrilladoOptions t =
      ((t.drop 1).filter (fun r => 5 < r.length)).map (fun r => r.getD 5 (Cell.s [])) := by
  unfold idTrilladoOptions
  by_cases h : 1 < t.length
  · rw [if_pos h]
    exact filterMapGuard_eq_map_filter (t.drop 1)
  · rw [if_neg h]
    have hd : t.drop 1 = [] := List.drop_eq_nil_of_le (by omega)
    rw [hd]
    rfl

/-- C5 is false as stated: in the duplicate checks and the Hulling selection
list, a row shorter than the expected key position (an empty row, for the
column-0 reads) is NOT skipped — it raises an IndexError that aborts the
whole extraction, so the operation is not total. -/
theorem key_extraction_not_total :
    recebExistingIds [[]] = .error "IndexError: list index out of range" ∧
    recibimientoIds [[Cell.s (str "h")], []] = .error "IndexError: list index out of range" :=
  ⟨rfl, rfl⟩

/-- C5 (amended): only the Profiling selection-list extraction (index 5) skips
rows shorter than the key position.  The column-0 and last-column extractions
never skip a row: when every scanned row is nonempty they yield exactly one
key per scanned row, and a scanned empty row makes the whole extraction
error out instead of being skipped. -/
theorem key_extraction_totality (t : Table) :
    (idTrilladoOptions t =
      ((t.drop 1).filter (fun r => 5 < r.length)).map (fun r => r.getD 5 (Cell.s []))) ∧
    ((∀ r ∈ t, r ≠ []) → ∃ ids, recebExistingIds t = .ok ids ∧ ids.length = t.length) ∧
    ((∃ r ∈ t, r = []) → ∃ e, recebExistingIds t = .error e) ∧
    ((∀ r ∈ t.drop 1, r ≠ []) →
      ∃ ids, recibimientoIds t = .ok ids ∧ ids.length = t.length - 1) ∧
    (1 < t.length → (∃ r ∈ t.drop 1, r = []) → ∃ e, recibimientoIds t = .error e) ∧
    ((∀ r ∈ t.drop 1, r ≠ []) →
      ∃ ids, trilladoExistingIds t = .ok ids ∧ ids.length = t.length - 1) ∧
    (1 < t.length → (∃ r ∈ t.drop 1, r = []) → ∃ e, trilladoExistingIds t = .error e) := by
  refine ⟨idTrilladoOptions_eq t, ?_, ?_, ?_, ?_, ?_, ?_⟩
  · intro hne
    obtain ⟨ids, hids⟩ := comprehendE_ok_of_forall pyIdx0 t
      (fun r hr => pyIdx0_ok_of_ne_nil r (hne r hr))
    exact ⟨ids, hids, comprehendE_length pyIdx0 t ids hids⟩
  · rintro ⟨r, hr, rfl⟩
    exact comprehendE_error_of_mem pyIdx0 t [] hr _ rfl
  · intro hne
    unfold recibimientoIds
    by_cases h : 1 < t.length
    · rw [if_pos h]
      obtain ⟨ids, hids⟩ := comprehendE_ok_of_forall pyIdx0 (t.drop 1)
        (fun r hr => pyIdx0_ok_of_ne_nil r (hne r hr))
      refine ⟨ids, hids, ?_⟩
      rw [comprehendE_length pyIdx0 (t.drop 1) ids hids, List.length_drop]
    · rw [if_neg h]
      refine ⟨[], rfl, ?_⟩
      simp only [List.length_nil]
      omega
  · rintro h ⟨r, hr, rfl⟩
    unfold recibimientoIds
    rw [if_pos h]
    exact comprehendE_error_of_mem pyIdx0 (t.drop 1) [] hr _ rfl
  · intro hne
    unfold trilladoExistingIds
    by_cases h : 1 < t.length
    · rw [if_pos h]
      obtain ⟨ids, hids⟩ := comprehendE_ok_of_forall pyIdxLast (t.drop 1)
        (fun r hr => pyIdxLast_ok_of_ne_nil r (hne r hr))
      refine ⟨ids, hids, ?_⟩
      rw [comprehendE_length pyIdxLast (t.drop 1) ids hids, List.length_drop]
    · rw [if_neg h]
      refine ⟨[], rfl, ?_⟩
      simp only [List.length_nil]
      omega
  · rintro h ⟨r, hr, rfl⟩
    unfold trilladoExistingIds
    rw [if_pos h]
    exact comprehendE_error_of_mem pyIdxLast (t.drop 1) [] hr _ rfl

/-- C5 (amended) evaluated: two nonempty rows yield two keys (none skipped). -/
theorem key_extraction_totality_witness :
    ∃ ids, recebExistingIds [[Cell.s (str "a")], [Cell.s (str "b")]] = .ok ids ∧
      ids.length = ([[Cell.s (str "a")], [Cell.s (str "b")]] : Table).length :=
  (key_extraction_totality [[Cell.s (str "a")], [Cell.s (str "b")]]).2.1 (by decide)

/-! ## C6: idempotence of re-submission at the Receiving stage -/

/-- C6: from a Receiving table state in which the derived identifier is
absent, submitting the same form twice yields: first submission accepted and
appended, second rejected as duplicate with the table unchanged, and exactly
one persisted row carrying that identifier. -/
theorem receiving_resubmission_idempotent (t : Table) (f : RecebForm) (ex : List Cell)
    (id : PyStr) (hid : id = derive_receiving_id f.fecha f.provedor f.origen f.lote_bolsa)
    (hex : recebExistingIds t = .ok ex)
    (habs : Cell.s id ∉ ex) :
    ∃ o1 o2 : RecebOutcome,
      submit_form t f = .ok o1 ∧
      o1.msg = recebSuccessMsg id ∧
      o1.table = t ++ [recebRow f id (normCheckbox f.libre_contaminacion)
        (normCheckbox f.vehiculo_sin_contaminacion) (normCheckbox f.buen_estado)] ∧
      submit_form o1.table f = .ok o2 ∧
      o2.msg = recebRejectMsg id ∧
      o2.table = o1.table ∧
      countId o1.table id = 1 := by
  subst hid
  have h1 : submit_form t f = .ok
      { table := t ++ [recebRow f (derive_receiving_id f.fecha f.provedor f.origen f.lote_bolsa)
          (normCheckbox f.libre_contaminacion) (normCheckbox f.vehiculo_sin_contaminacion)
          (normCheckbox f.buen_estado)],
        msg := recebSuccessMsg (derive_receiving_id f.fecha f.provedor f.origen f.lote_bolsa),
        lastSubmission := recebLastSubmission f
          (derive_receiving_id f.fecha f.provedor f.origen f.lote_bolsa)
          (normCheckbox f.libre_contaminacion) (normCheckbox f.vehiculo_sin_contaminacion)
          (normCheckbox f.buen_estado) } := by
    simp only [submit_form, hex, if_neg habs]
  have hrow : comprehendE pyIdx0
      [recebRow f (derive_receiving_id f.fecha f.provedor f.origen f.lote_bolsa)
        (normCheckbox f.libre_contaminacion) (normCheckbox f.vehiculo_sin_contaminacion)
        (normCheckbox f.buen_estado)] =
      .ok [Cell.s (derive_receiving_id f.fecha f.provedor f.origen f.lote_bolsa)] := rfl
  have hex2 : recebExistingIds (t ++ [recebRow f
      (derive_receiving_id f.fecha f.provedor f.origen f.lote_bolsa)
      (normCheckbox f.libre_contaminacion) (normCheckbox f.vehiculo_sin_contaminacion)
      (normCheckbox f.buen_estado)]) =
      .ok (ex ++ [Cell.s (derive_receiving_id f.fecha f.provedor f.origen f.lote_bolsa)]) :=
    comprehendE_append pyIdx0 t _ ex _ hex hrow
  have h2 : submit_form (t ++ [recebRow f
      (derive_receiving_id f.fecha f.provedor f.origen f.lote_bolsa)
      (normCheckbox f.libre_contaminacion) (normCheckbox f.vehiculo_sin_contaminacion)
      (normCheckbox f.buen_estado)]) f = .ok
      { table := t ++ [recebRow f (derive_receiving_id f.fecha f.provedor f.origen f.lote_bolsa)
          (normCheckbox f.libre_contaminacion) (normCheckbox f.vehiculo_sin_contaminacion)
          (normCheckbox f.buen_estado)],
        msg := recebRejectMsg (derive_receiving_id f.fecha f.provedor f.origen f.lote_bolsa),
        lastSubmission := recebLastSubmission f
          (derive_receiving_id f.fecha f.provedor f.origen f.lote_bolsa)
          (normCheckbox f.libre_contaminacion) (normCheckbox f.vehiculo_sin_contaminacion)
          (normCheckbox f.buen_estado) } := by
    simp only [submit_form, hex2, if_pos (by simp : Cell.s
      (derive_receiving_id f.fecha f.provedor f.origen f.lote_bolsa) ∈
        ex ++ [Cell.s (derive_receiving_id f.fecha f.provedor f.origen f.lote_bolsa)])]
  have hzero : countId t (derive_receiving_id f.fecha f.provedor f.origen f.lote_bolsa) = 0 := by
    rw [countId, List.countP_eq_zero]
    intro r hr
    simp only [decide_eq_true_eq]
    intro hhead
    exact habs ((recebExistingIds_mem t ex hex _).mpr ⟨r, hr, hhead⟩)
  have hcount : countId (t ++ [recebRow f
      (derive_receiving_id f.fecha f.provedor f.origen f.lote_bolsa)
      (normCheckbox f.libre_contaminacion) (normCheckbox f.vehiculo_sin_contaminacion)
      (normCheckbox f.buen_estado)])
      (derive_receiving_id f.fecha f.provedor f.origen f.lote_bolsa) = 1 := by
    rw [countId, List.countP_append]
    rw [countId] at hzero
    rw [hzero]
    simp [recebRow]
  exact ⟨_, _, h1, rfl, rfl, h2, rfl, rfl, hcount⟩

/-- C6 evaluated on the empty table with the blank form (identifier `"-"`). -/
theorem receiving_resubmission_idempotent_witness :
    ∃ o1 o2 : RecebOutcome,
      submit_form [] blankRecebForm = .ok o1 ∧
      o1.msg = recebSuccessMsg (str "-") ∧
      o1.table = [] ++ [recebRow blankRecebForm (str "-")
        (normCheckbox blankRecebForm.libre_contaminacion)
        (normCheckbox blankRecebForm.vehiculo_sin_contaminacion)
        (normCheckbox blankRecebForm.buen_estado)] ∧
      submit_form o1.table blankRecebForm = .ok o2 ∧
      o2.msg = recebRejectMsg (str "-") ∧
      o2.table = o1.table ∧
      countId o1.table (str "-") = 1 :=
  receiving_resubmission_idempotent [] blankRecebForm [] (str "-") (by decide) rfl (by simp)

/-! ## C7: the Profiling identifier is the hulling identifier, verbatim -/

/-- C7: the Profiling stage mints no new identifier: the submitted hulling
identifier is stored verbatim as column 0 of the appended row and is exactly
the value the duplicate check compares against column 0 of the non-header
rows; consequently, at most one Profiling record (non-header row) can exist
per hulling identifier. -/
theorem profiling_id_identity (tril perf : Table) (f : PerfiladoForm) (ex : List Cell)
    (hex : perfiladoExistingIds perf = .ok ex) :
    (perfiladoRow f (husk_loss_fraction f.muestra_pergamino f.muestra_trillado)).head? =
      some (Cell.s f.id_trillado) ∧
    ∀ o : PerfiladoOutcome, perfilado_submit_form tril perf f = .ok o →
      ((Cell.s f.id_trillado ∈ ex → o.table = perf) ∧
       (Cell.s f.id_trillado ∉ ex →
         o.table = perf ++ [perfiladoRow f
           (husk_loss_fraction f.muestra_pergamino f.muestra_trillado)]) ∧
       (countId (perf.drop 1) f.id_trillado ≤ 1 →
         countId (o.table.drop 1) f.id_trillado ≤ 1)) := by
  refine ⟨rfl, ?_⟩
  intro o ho
  simp only [perfilado_submit_form, hex] at ho
  by_cases hm : Cell.s f.id_trillado ∈ ex
  · rw [if_pos hm] at ho
    simp only [Except.ok.injEq] at ho
    subst ho
    exact ⟨fun _ => rfl, fun hab => absurd hm hab, fun hc => hc⟩
  · rw [if_neg hm] at ho
    simp only [Except.ok.injEq] at ho
    subst ho
    refine ⟨fun hmem => absurd hmem hm, fun _ => rfl, fun hc => ?_⟩
    cases perf with
    | nil => simp [countId]
    | cons p ps =>
      have hps : countId ps f.id_trillado = 0 := by
        rw [countId, List.countP_eq_zero]
        intro r hr
        simp only [decide_eq_true_eq]
        intro hhead
        exact hm ((perfiladoExistingIds_mem (p :: ps) ex hex _).mpr ⟨r, hr, hhead⟩)
      show countId (((p :: ps) ++ [perfiladoRow f
        (husk_loss_fraction f.muestra_pergamino f.muestra_trillado)]).drop 1) f.id_trillado ≤ 1
      rw [List.cons_append, List.drop_one, List.tail_cons, countId, List.countP_append]
      rw [countId] at hps
      rw [hps]
      simp [perfiladoRow]

/-- The outcome of submitting the blank Perfilado form against empty tables. -/
def blankPerfiladoOutcome : PerfiladoOutcome :=
  { table := [perfiladoRow blankPerfiladoForm (husk_loss_fraction 0 0)],
    msg := perfiladoSuccessMsg [],
    lastSubmission := perfiladoLastSubmission blankPerfiladoForm,
    id_trillado_options := [] }

/-- C7 evaluated on the blank Perfilado submission against empty tables. -/
theorem profiling_id_identity_witness :
    (perfiladoRow blankPerfiladoForm (husk_loss_fraction 0 0)).head? = some (Cell.s []) ∧
    countId (blankPerfiladoOutcome.table.drop 1) [] ≤ 1 := by
  have h := profiling_id_identity [] [] blankPerfiladoForm [] rfl
  exact ⟨h.1, (h.2 blankPerfiladoOutcome rfl).2.2 (by decide)⟩

/-! ## C8: the Profiling selection list -/

/-- C8: the Profiling selection list is, in order, the index-5 entry of every
row after the header that has more than 5 columns (rows with fewer than 6
columns never appear); the pre-selected default is the first element of the
list, and the list is empty with empty-string default when the Hulling table
is header-only or empty. -/
theorem profiling_selection_list (t : Table) :
    idTrilladoOptions t =
      ((t.drop 1).filter (fun r => 5 < r.length)).map (fun r => r.getD 5 (Cell.s [])) ∧
    (t.length ≤ 1 → idTrilladoOptions t = [] ∧
      selectionDefault (idTrilladoOptions t) = Cell.s []) ∧
    (∀ c cs, idTrilladoOptions t = c :: cs → selectionDefault (idTrilladoOptions t) = c) := by
  refine ⟨idTrilladoOptions_eq t, ?_, ?_⟩
  · intro hlen
    have hnil : idTrilladoOptions t = [] := by
      unfold idTrilladoOptions
      rw [if_neg (by omega)]
    rw [hnil]
    exact ⟨rfl, rfl⟩
  · intro c cs h
    rw [h]
    rfl

/-- A Hulling table with a header, a malformed 1-column row and a full
6-column row. -/
def sampleTrilladoTable : Table :=
  [[Cell.s (str "hdr")],
   [Cell.s (str "short")],
   [Cell.s (str "R1"), Cell.s (str "f"), Cell.s (str "g"), Cell.n 1, Cell.s (str "o"),
    Cell.s (str "T1")]]

/-- C8 evaluated: the malformed row is omitted and the default is the sole
full row's index-5 entry. -/
theorem profiling_selection_list_witness :
    selectionDefault (idTrilladoOptions sampleTrilladoTable) = Cell.s (str "T1") :=
  (profiling_selection_list sampleTrilladoTable).2.2 (Cell.s (str "T1")) [] rfl

/-! ## C9: no referential check against the upstream table -/

/-- C9: for the Hulling and Profiling POST handlers, the appended-row outcome
and the status message depend only on the target table and the form: changing
the upstream table (in particular, whether or not the chosen upstream
identifier appears in it) never changes whether the row is appended,
provided the upstream read itself succeeds. -/
theorem upstream_presence_irrelevant (u1 u2 tril : Table) (fT : TrilladoForm)
    (l1 l2 : List Cell)
    (h1 : recibimientoIds u1 = .ok l1) (h2 : recibimientoIds u2 = .ok l2)
    (v1 v2 perf : Table) (fP : PerfiladoForm) :
    ((trillado_submit_form u1 tril fT).map (fun o => (o.table, o.msg)) =
      (trillado_submit_form u2 tril fT).map (fun o => (o.table, o.msg))) ∧
    ((perfilado_submit_form v1 perf fP).map (fun o => (o.table, o.msg)) =
      (perfilado_submit_form v2 perf fP).map (fun o => (o.table, o.msg))) := by
  constructor
  · simp only [trillado_submit_form, h1, h2]
    cases htril : trilladoExistingIds tril with
    | error e => rfl
    | ok ex =>
      by_cases hm : Cell.s (derive_hulling_id fT.id_recibimiento fT.grano_num) ∈ ex <;>
        simp only [if_pos, if_neg, hm, ite_true, ite_false] <;> rfl
  · simp only [perfilado_submit_form]
    cases hperf : perfiladoExistingIds perf with
    | error e => rfl
    | ok ex =>
      by_cases hm : Cell.s fP.id_trillado ∈ ex <;>
        simp only [if_pos, if_neg, hm, ite_true, ite_false] <;> rfl

/-- C9 evaluated: an upstream table missing the chosen identifier and one
containing it produce identical target tables and messages. -/
theorem upstream_presence_irrelevant_witness :
    ((trillado_submit_form [] [] blankTrilladoForm).map (fun o => (o.table, o.msg)) =
      (trillado_submit_form [[Cell.s (str "h")], [Cell.s (str "-")]] [] blankTrilladoForm).map
        (fun o => (o.table, o.msg))) ∧
    ((perfilado_submit_form [] [] blankPerfiladoForm).map (fun o => (o.table, o.msg)) =
      (perfilado_submit_form [[Cell.s (str "h")]] [] blankPerfiladoForm).map
        (fun o => (o.table, o.msg))) :=
  upstream_presence_irrelevant [] [[Cell.s (str "h")], [Cell.s (str "-")]] []
    blankTrilladoForm [] [Cell.s (str "-")] rfl rfl [] [[Cell.s (str "h")]] []
    blankPerfiladoForm

/-! ## C10: the husk loss fraction is not clamped to [0, 1] -/

/-- A Perfilado form with a hulled sample heavier than the parchment sample. -/
def overweightPerfiladoForm : PerfiladoForm :=
  { id_trillado := str "T1", muestra_pergamino := 100, humedad_pergamino := 0,
    muestra_trillado := 150, malla := [], densidad := 0, humedad_grano_verde := 0,
    negro := 0, agrio := 0, cereza_seca := 0, dano_hongo := 0, impurezas := 0,
    dano_severo_insectos := 0, parcial_negro := 0, parcial_agrio := 0, pergamino := 0,
    flotador := 0, inmaduro := 0, averanado := 0, concha := 0, partido_mordido := 0,
    cascara_pulpa_seca := 0, dano_leve_insectos := 0, perfil := str "Frutos Citricos",
    caramelizacion := 0, desarrollo := 0 }

/-- C10: with parchment weight 100 and hulled weight 150 the husk loss
fraction is the negative value -1/2; submitting such a form appends the row
with that negative value persisted unchanged at column index 7. -/
theorem husk_loss_not_clamped :
    husk_loss_fraction 100 150 = -(1/2) ∧
    husk_loss_fraction 100 150 < 0 ∧
    perfilado_submit_form [] [[Cell.s (str "hdr")]] overweightPerfiladoForm =
      .ok { table := [[Cell.s (str "hdr")],
              perfiladoRow overweightPerfiladoForm (husk_loss_fraction 100 150)],
            msg := perfiladoSuccessMsg (str "T1"),
            lastSubmission := perfiladoLastSubmission overweightPerfiladoForm,
            id_trillado_options := [] } ∧
    (perfiladoRow overweightPerfiladoForm (husk_loss_fraction 100 150)).get? 7 =
      some (Cell.n (husk_loss_fraction 100 150)) := by
  refine ⟨?_, ?_, rfl, rfl⟩
  · norm_num [husk_loss_fraction, pyRound2, rndHalfEven]
  · norm_num [husk_loss_fraction, pyRound2, rndHalfEven]

end RoastersCafe
